import Mathlib

/-!
# Verification of the issue-workflow layer

Shallow embedding of the issue-workflow orchestration code
(`CurrentIssue` in `currentIssue.ts` and `IssueFeatureRegistrar` in
`issueFeatureRegistrar.ts`).  Host-API calls (configuration reads, input
boxes, git checkout results, network calls) are modelled as explicit
environment records; UI and repository side effects become explicit
effect lists, so each method of the source becomes a pure state-passing
function that can be evaluated and reasoned about.
-/

/-- Pull-request defaults (owner / repo / base branch) as returned by
`PullRequestManager.getPullRequestDefaults`. -/
structure PullRequestDefaults where
  owner : String
  repo : String
  base : String
deriving DecidableEq, Repr

/-- The persisted per-issue state kept by the state manager
(`IssueState` in `stateManager.ts`): the saved branch name and the
"already has a draft PR" flag. -/
structure IssueState where
  branch : Option String := none
  hasDraftPR : Bool := false
deriving DecidableEq, Repr

/-- JavaScript truthiness of a `string | undefined` value: `undefined`
and the empty string are falsy, every other string is truthy. -/
def strTruthy : Option String → Bool
  | none => false
  | some s => !s.isEmpty

/-- `CurrentIssue.getBasicBranchName` (currentIssue.ts lines 76-78): the
deterministic fallback branch name for an issue. -/
def getBasicBranchName (user : String) (number : Nat) : String :=
  user ++ "/issue" ++ toString number

/-- Environment of one `createIssueBranch` call: the configuration
values read from the workspace, the result of the branch-name prompt,
the result of template substitution of the branch-name template, the
authenticated user, and which branch names `createOrCheckoutBranch`
would fail (throw) on. -/
structure BranchEnv where
  shouldPromptForBranch : Bool
  branchConfig : String
  branchNameSubst : String
  promptResult : Option String
  user : String
  checkoutFails : String → Bool

/-- Lines 120-122 of `createIssueBranch`: a falsy (absent or empty)
resolved name is replaced by the basic branch name. -/
def defaultedName (resolved : Option String) (basic : String) : String :=
  match resolved with
  | some s => if s.isEmpty then basic else s
  | none => basic

/-- Branch-name resolution, the first half of
`CurrentIssue.createIssueBranch` (currentIssue.ts lines 105-122).
Returns the resolved name (`none` when the configuration is `off`, so no
branch is resolved) together with whether the user was prompted.

Line 106: a requested prompt forces the configuration to `prompt`.
Line 111: the saved branch is ignored when a prompt was requested.
Lines 112-118: a falsy current name is replaced from the template when
the configuration is `on`, otherwise from the prompt.
Lines 120-122: a still-falsy name falls back to the basic name. -/
def resolveBranch (env : BranchEnv) (number : Nat) (saved : IssueState) :
    Option String × Bool :=
  let createBranchConfig := if env.shouldPromptForBranch then "prompt" else env.branchConfig
  if createBranchConfig = "off" then (none, false)
  else
    let fromState : Option String := if env.shouldPromptForBranch then none else saved.branch
    let afterConfig : Option String × Bool :=
      if strTruthy fromState then (fromState, false)
      else if createBranchConfig = "on" then (some env.branchNameSubst, false)
      else (env.promptResult, true)
    (some (defaultedName afterConfig.1 (getBasicBranchName env.user number)), afterConfig.2)

/-- Observable outcome of one `createIssueBranch` call: the session's
`_branchName` field afterwards, the persisted per-issue state
afterwards, the branch names on which `createOrCheckoutBranch` was
attempted in order, the error messages shown, and whether an exception
escaped the method (the retry on line 139 is outside any try/catch). -/
structure BranchResult where
  branchName : Option String
  savedState : IssueState
  checkoutAttempts : List String
  errorMessages : List String
  threw : Bool
deriving DecidableEq, Repr

/-- `CurrentIssue.createIssueBranch` (currentIssue.ts lines 105-141).
After resolution the name is persisted (lines 124-125) before checkout
is attempted (line 127).  On checkout failure: if the name already is
the basic name, an error is shown and `_branchName` is cleared (lines
130-134); otherwise an error is shown, the basic name is substituted and
persisted, and checkout is retried once (lines 135-139), any failure of
that retry escaping the method. -/
def createIssueBranch (env : BranchEnv) (number : Nat) (saved : IssueState) :
    BranchResult :=
  match (resolveBranch env number saved).1 with
  | none => ⟨none, saved, [], [], false⟩
  | some name =>
    let saved1 : IssueState := { saved with branch := some name }
    if env.checkoutFails name then
      let basic := getBasicBranchName env.user number
      if name = basic then
        ⟨none, saved1, [name],
          ["Unable to checkout branch. There may be file conflicts that prevent this branch change."],
          false⟩
      else
        ⟨some basic, { saved1 with branch := some basic }, [name, basic],
          ["Unable to create branch with the resolved name. Using the basic name instead."],
          env.checkoutFails basic⟩
    else
      ⟨some name, saved1, [name], [], false⟩

/-- Environment of one `createDraftPR` call: the
`alwaysCreateDraftPR` configuration value and whether
`pushAndCreatePR` would succeed. -/
structure DraftPREnv where
  alwaysCreateDraftPR : Bool
  pushSucceeds : Bool
deriving DecidableEq, Repr

/-- Observable outcome of one `createDraftPR` call: whether
`pushAndCreatePR` was invoked, and the persisted per-issue state
afterwards. -/
structure DraftPRResult where
  pushed : Bool
  state : IssueState
deriving DecidableEq, Repr

/-- `CurrentIssue.createDraftPR` (currentIssue.ts lines 159-173): when
the configuration is enabled and `_branchName` is truthy, the saved
issue state is consulted; only when `hasDraftPR` is not yet set is the
branch pushed, and a successful push records `hasDraftPR := true` in the
persisted state. -/
def createDraftPR (env : DraftPREnv) (branchName : Option String)
    (issueState : IssueState) : DraftPRResult :=
  if env.alwaysCreateDraftPR && strTruthy branchName then
    if !issueState.hasDraftPR then
      if env.pushSucceeds then
        ⟨true, { issueState with hasDraftPR := true }⟩
      else
        ⟨true, issueState⟩
    else ⟨false, issueState⟩
  else ⟨false, issueState⟩

/-- Number of `pushAndCreatePR` invocations made by a sequence of
`createDraftPR` calls (each with its own environment and branch name,
threading the persisted state) at moments where the persisted
`hasDraftPR` flag was already true. -/
def pushesWhileFlagged : List (DraftPREnv × Option String) → IssueState → Nat
  | [], _ => 0
  | (e, b) :: rest, s =>
    (if s.hasDraftPR && (createDraftPR e b s).pushed then 1 else 0) +
      pushesWhileFlagged rest (createDraftPR e b s).state

/-- Number of successful pushes made by a sequence of `createDraftPR`
calls, threading the persisted state. -/
def successfulPushes : List (DraftPREnv × Option String) → IssueState → Nat
  | [], _ => 0
  | (e, b) :: rest, s =>
    (if (createDraftPR e b s).pushed && e.pushSucceeds then 1 else 0) +
      successfulPushes rest (createDraftPR e b s).state

/-- A live current-issue session as needed by `stopWorking`: the issue
number, whether a matching local repository was found by `setRepo`, and
the cached pull-request defaults. -/
structure CurrentIssueSession where
  number : Nat
  hasRepo : Bool
  repoDefaults : Option PullRequestDefaults
deriving DecidableEq, Repr

/-- A repository mutation performed by the issue workflow. -/
inductive RepoEffect where
  | clearInputBox
  | checkout (branch : String)
deriving DecidableEq, Repr

/-- Repository mutations of `CurrentIssue.stopWorking` (currentIssue.ts
lines 66-74): clear the commit-message input box when a repository was
resolved, and check out the base branch when defaults are known. -/
def currentIssueStopWorking (s : CurrentIssueSession) : List RepoEffect :=
  (if s.hasRepo then [RepoEffect.clearInputBox] else []) ++
    (match s.repoDefaults with
     | some d => [RepoEffect.checkout d.base]
     | none => [])

/-- `IssueFeatureRegistrar.stopWorking` (issueFeatureRegistrar.ts lines
318-322): only when the argument is an `IssueModel` and its number
equals the current issue's number is the current issue replaced by
`undefined`.

Modelled from the spec: `StateManager.setCurrentIssue` is not among the
sources; per the spec, replacing the current issue with none stops and
disposes the active session, i.e. runs `CurrentIssue.stopWorking` on
it.  Returns the repository mutations performed and the current session
afterwards. -/
def registrarStopWorking (argIsIssueModel : Bool) (argNumber : Nat)
    (current : Option CurrentIssueSession) :
    List RepoEffect × Option CurrentIssueSession :=
  match current with
  | some s =>
    if argIsIssueModel && (s.number == argNumber) then
      (currentIssueStopWorking s, none)
    else ([], some s)
  | none => ([], none)

/-- Environment of one `CurrentIssue.startWorking` call: the result of
the initial `getPullRequestDefaults` call (`none` when it threw), the
branch environment, the draft-PR configuration, whether a repository was
resolved, and the `workingIssueFormatScm` configuration value. -/
structure StartWorkingEnv where
  defaultsFetch : Option PullRequestDefaults
  branchEnv : BranchEnv
  draftEnv : DraftPREnv
  hasRepo : Bool
  workingIssueFormatScm : Option String

/-- Observable outcome of one `CurrentIssue.startWorking` call. -/
structure StartWorkingResult where
  repoDefaults : Option PullRequestDefaults
  errorShown : Bool
  branch : BranchResult
  commitMessageSet : Bool
  statusBarShown : Bool
  draftPushed : Bool
  finalIssueState : IssueState
deriving Repr

/-- `CurrentIssue.startWorking` (currentIssue.ts lines 47-58): the
defaults fetch is wrapped in try/catch, a failure only showing an error
message and leaving `repoDefaults` undefined; then the branch is
resolved, the commit message set (when a repository was resolved and the
format configuration is a string), the status bar shown and the
draft-PR step run.  Steps after `createIssueBranch` only run when no
exception escaped it. -/
def startWorking (env : StartWorkingEnv) (number : Nat) (saved : IssueState) :
    StartWorkingResult :=
  let defaults := env.defaultsFetch
  let branch := createIssueBranch env.branchEnv number saved
  if branch.threw then
    ⟨defaults, defaults.isNone, branch, false, false, false, branch.savedState⟩
  else
    let commitSet := env.hasRepo && env.workingIssueFormatScm.isSome
    let draft := createDraftPR env.draftEnv branch.branchName branch.savedState
    ⟨defaults, defaults.isNone, branch, commitSet, true, draft.pushed, draft.state⟩

/-- An entry of the status-bar quick-pick menu
(`IssueFeatureRegistrar.statusBar`). -/
inductive StatusBarChoice where
  | openIssue
  | createPR
  | createDraft
  | applyPatch
  | stopWorkingOnIssue
deriving DecidableEq, Repr

/-- The choices offered by `IssueFeatureRegistrar.statusBar`
(issueFeatureRegistrar.ts lines 324-338): the apply-patch entry is
included exactly when the current issue has a truthy branch name and
the menu's own defaults fetch succeeded. -/
def statusBarChoices (branchName : Option String)
    (defaults : Option PullRequestDefaults) : List StatusBarChoice :=
  if strTruthy branchName && defaults.isSome then
    [StatusBarChoice.openIssue, StatusBarChoice.createPR, StatusBarChoice.createDraft,
      StatusBarChoice.applyPatch, StatusBarChoice.stopWorkingOnIssue]
  else
    [StatusBarChoice.openIssue, StatusBarChoice.createPR, StatusBarChoice.createDraft,
      StatusBarChoice.stopWorkingOnIssue]

/-- The user names of the at-mentions of a text, in order: each
occurrence of an at-sign followed by a maximal nonempty run of
non-whitespace characters contributes that run. -/
def mentionGroupsAux : Nat → List Char → List String
  | 0, _ => []
  | _ + 1, [] => []
  | fuel + 1, c :: rest =>
    let grp := rest.takeWhile (fun ch => !ch.isWhitespace)
    if c = '@' ∧ grp.isEmpty = false then
      String.mk grp :: mentionGroupsAux fuel (rest.drop grp.length)
    else
      mentionGroupsAux fuel rest

/-- The user names of the at-mentions of a text, in order (worker above,
structurally recursive on a character-count fuel, which suffices since
every step consumes at least one character). -/
def mentionGroups (l : List Char) : List String :=
  mentionGroupsAux l.length l

/-- Modelled from the spec: `USER_EXPRESSION` and the surrounding string
matching live in `issues/util.ts`, which is not among the sources.  Per
the spec, matching "extracts an optional `@user` assignee mention"
and an assignee results exactly for "selection text containing exactly
one `@knownUser` mention"; so the match succeeds exactly when the text
holds exactly one mention, yielding the full match followed by the
captured user name (a two-element result, as consumed by
`createTodoIssue`). -/
def matchUserExpression (text : String) : Option (List String) :=
  match mentionGroups text.toList with
  | [g] => some ["@" ++ g, g]
  | _ => none

/-- The assignee computation of `IssueFeatureRegistrar.createTodoIssue`
(issueFeatureRegistrar.ts lines 419-422): the match result must exist,
have length two, and its captured group must be a key of the known-users
map for an assignee to be set. -/
def computeAssignee (knownUsers : List String) (text : String) : Option String :=
  match matchUserExpression text with
  | some ms =>
    if ms.length = 2 ∧ knownUsers.contains (ms.getD 1 "") then some (ms.getD 1 "")
    else none
  | none => none

/-- An editor-UI side effect of the issue-creation flow. -/
inductive UIEffect where
  | errorMessage (msg : String)
  | insertEdit (line : Nat) (insertIndex : Nat) (text : String)
  | openExternal (url : String)
  | refreshCache
deriving DecidableEq, Repr

/-- A successfully created remote issue, as returned by
`PullRequestManager.createIssue`. -/
structure CreatedIssue where
  number : Nat
  html_url : String
deriving DecidableEq, Repr

/-- Environment of one `doCreateIssue` call: the result of
`getPullRequestDefaults` (`none` when it threw because no remote is
configured), the result of the remote creation call, the
`createInsertFormat` configuration value (after its `number` default),
and the optional line number and insert index the command was invoked
with. -/
structure DoCreateIssueEnv where
  defaultsResult : Option PullRequestDefaults
  createResult : Option CreatedIssue
  createInsertFormat : String
  lineNumber : Option Nat
  insertIndex : Option Nat

/-- Observable outcome of one `doCreateIssue` call: the UI effects, and
whether the remote creation call was reached at all. -/
structure DoCreateIssueResult where
  effects : List UIEffect
  createCalled : Bool
deriving DecidableEq, Repr

/-- `IssueFeatureRegistrar.doCreateIssue` (issueFeatureRegistrar.ts
lines 464-492): a failing defaults fetch is caught, shows an error
message and returns before any creation or edit; on a created issue,
when both insert index and line number were provided a reference
(`#number` when the `createInsertFormat` configuration is `number`,
otherwise the full URL) is inserted, preceded by a space, at that
position, otherwise the issue URL is opened externally; either way the
cache is refreshed. -/
def doCreateIssue (env : DoCreateIssueEnv) : DoCreateIssueResult :=
  match env.defaultsResult with
  | none => ⟨[UIEffect.errorMessage "There is no remote. Cannot create an issue."], false⟩
  | some _ =>
    match env.createResult with
    | none => ⟨[], true⟩
    | some issue =>
      match env.insertIndex, env.lineNumber with
      | some ii, some ln =>
        ⟨[UIEffect.insertEdit ln ii
            (" " ++ (if env.createInsertFormat = "number"
              then "#" ++ toString issue.number else issue.html_url)),
          UIEffect.refreshCache], true⟩
      | _, _ => ⟨[UIEffect.openExternal issue.html_url, UIEffect.refreshCache], true⟩

/-- `IssueFeatureRegistrar.createIssue` (issueFeatureRegistrar.ts lines
214-221): on a defaults fetch failure an error message is shown;
otherwise the new-issue page of the default repository is opened
externally. -/
def registrarCreateIssue (defaultsResult : Option PullRequestDefaults) : List UIEffect :=
  match defaultsResult with
  | some d =>
    [UIEffect.openExternal
      ("https://github.com/" ++ d.owner ++ "/" ++ d.repo ++ "/issues/new/choose")]
  | none => [UIEffect.errorMessage "Unable to determine where to create the issue."]

/-- The result of `WorkspaceConfiguration.inspect` on the queries
configuration, as consumed by `editQuery`: the configured value at
workspace scope and the default value (each an array of query records,
abstracted to strings).  A present array is truthy in JavaScript. -/
structure QueriesInspect where
  workspaceValue : Option (List String)
  defaultValue : Option (List String)
deriving DecidableEq, Repr

/-- The settings file opened by `IssueFeatureRegistrar.editQuery`
(issueFeatureRegistrar.ts lines 256-268): the workspace settings file
exactly when the inspection reports a workspace-scope value, otherwise
the global settings JSON. -/
def editQueryCommand (inspect : Option QueriesInspect) : String :=
  match inspect with
  | some i =>
    if i.workspaceValue.isSome then "workbench.action.openWorkspaceSettingsFile"
    else "workbench.action.openSettingsJson"
  | none => "workbench.action.openSettingsJson"

/-! ## Helper lemmas -/

lemma getBasicBranchName_not_empty (u : String) (n : Nat) :
    (getBasicBranchName u n).isEmpty = false := by
  rw [getBasicBranchName, Bool.eq_false_iff, Ne, String.isEmpty_iff]
  intro h
  have h2 := congrArg String.data h
  simp [String.data_append] at h2

lemma defaultedName_not_empty (x : Option String) (basic : String)
    (h : basic.isEmpty = false) : (defaultedName x basic).isEmpty = false := by
  unfold defaultedName
  cases x with
  | none => exact h
  | some s =>
    by_cases hs : s.isEmpty = true
    · simpa [hs] using h
    · simp only [Bool.not_eq_true] at hs
      simp [hs]

lemma resolveBranch_name_not_empty (env : BranchEnv) (n : Nat) (saved : IssueState)
    (name : String) (h : (resolveBranch env n saved).1 = some name) :
    name.isEmpty = false := by
  unfold resolveBranch at h
  by_cases hoff : (if env.shouldPromptForBranch then "prompt" else env.branchConfig) = "off"
  · simp [hoff] at h
  · simp only [hoff, if_false] at h
    simp only [Option.some.injEq] at h
    rw [← h]
    exact defaultedName_not_empty _ _ (getBasicBranchName_not_empty _ _)

lemma resolveBranch_reuses_saved (env : BranchEnv) (n : Nat) (saved : IssueState)
    (h1 : env.shouldPromptForBranch = false) (h2 : env.branchConfig ≠ "off")
    (h3 : strTruthy saved.branch = true) :
    resolveBranch env n saved = (saved.branch, false) := by
  cases hb : saved.branch with
  | none => rw [hb] at h3; simp [strTruthy] at h3
  | some s =>
    rw [hb] at h3
    have hs : s.isEmpty = false := by simpa [strTruthy] using h3
    simp [resolveBranch, h1, h2, hb, strTruthy, hs, defaultedName]

lemma createIssueBranch_branchName_saved (env : BranchEnv) (n : Nat)
    (saved : IssueState) (b : String)
    (h : (createIssueBranch env n saved).branchName = some b) :
    (createIssueBranch env n saved).savedState.branch = some b ∧
      b.isEmpty = false := by
  unfold createIssueBranch at h ⊢
  cases hres : (resolveBranch env n saved).1 with
  | none => rw [hres] at h; simp at h
  | some name =>
    have hname := resolveBranch_name_not_empty env n saved name hres
    rw [hres] at h
    by_cases hf : env.checkoutFails name = true
    · by_cases hb : name = getBasicBranchName env.user n
      · rw [hb] at hf
        simp [hb, hf] at h
      · simp only [hf, if_true, hb, if_false] at h ⊢
        simp only [Option.some.injEq] at h
        rw [← h]
        exact ⟨rfl, getBasicBranchName_not_empty _ _⟩
    · simp only [Bool.not_eq_true] at hf
      simp only [hf, Bool.false_eq_true, if_false] at h ⊢
      simp only [Option.some.injEq] at h
      rw [← h]
      exact ⟨rfl, hname⟩

lemma createDraftPR_flagged (e : DraftPREnv) (b : Option String) (s : IssueState)
    (h : s.hasDraftPR = true) : createDraftPR e b s = ⟨false, s⟩ := by
  unfold createDraftPR
  simp [h]

lemma createDraftPR_pushed_not_flagged (e : DraftPREnv) (b : Option String)
    (s : IssueState) (h : (createDraftPR e b s).pushed = true) :
    s.hasDraftPR = false := by
  by_cases hs : s.hasDraftPR = true
  · rw [createDraftPR_flagged e b s hs] at h; simp at h
  · simpa using hs

lemma createDraftPR_success_flag (e : DraftPREnv) (b : Option String)
    (s : IssueState) (h1 : (createDraftPR e b s).pushed = true)
    (h2 : e.pushSucceeds = true) :
    (createDraftPR e b s).state.hasDraftPR = true := by
  have hs := createDraftPR_pushed_not_flagged e b s h1
  unfold createDraftPR at h1 ⊢
  by_cases hc : (e.alwaysCreateDraftPR && strTruthy b) = true
  · simp [hc, hs, h2]
  · simp [hc] at h1

lemma successfulPushes_flagged (calls : List (DraftPREnv × Option String))
    (s : IssueState) (h : s.hasDraftPR = true) : successfulPushes calls s = 0 := by
  induction calls generalizing s with
  | nil => rfl
  | cons hd tl ih =>
    obtain ⟨e, b⟩ := hd
    rw [successfulPushes, createDraftPR_flagged e b s h]
    simpa using ih s h

lemma pushesWhileFlagged_eq_zero (calls : List (DraftPREnv × Option String))
    (s : IssueState) : pushesWhileFlagged calls s = 0 := by
  induction calls generalizing s with
  | nil => rfl
  | cons hd tl ih =>
    obtain ⟨e, b⟩ := hd
    by_cases h : s.hasDraftPR = true
    · rw [pushesWhileFlagged, createDraftPR_flagged e b s h]
      simpa using ih s
    · simp only [Bool.not_eq_true] at h
      rw [pushesWhileFlagged]
      simp only [h, Bool.false_and, if_false]
      simpa using ih _

lemma successfulPushes_le_one (calls : List (DraftPREnv × Option String))
    (s : IssueState) : successfulPushes calls s ≤ 1 := by
  induction calls generalizing s with
  | nil => simp [successfulPushes]
  | cons hd tl ih =>
    obtain ⟨e, b⟩ := hd
    rw [successfulPushes]
    by_cases hp : ((createDraftPR e b s).pushed && e.pushSucceeds) = true
    · rw [Bool.and_eq_true] at hp
      have hflag := createDraftPR_success_flag e b s hp.1 hp.2
      rw [successfulPushes_flagged tl _ hflag]
      simp [hp.1, hp.2]
    · simp only [Bool.not_eq_true] at hp
      simp only [hp, if_false]
      simpa using ih _

/-! ## Claim theorems -/

/-- C1: In `createIssueBranch`, if checkout-or-create of the resolved
branch name fails, the method retries exactly once with the
deterministic fallback name `user/issueN` (persisting that name, so on
success it is both the session branch and the saved branch), surfaces
an error message in every failure path — in particular when the
resolved name already is the fallback name, in which case no retry
happens at all — and never makes more than two checkout attempts. -/
theorem branch_checkout_failure_retries_once_with_fallback
    (env : BranchEnv) (number : Nat) (saved : IssueState) (name : String)
    (hres : (resolveBranch env number saved).1 = some name)
    (hfail : env.checkoutFails name = true) :
    (createIssueBranch env number saved).checkoutAttempts.length ≤ 2 ∧
    (name ≠ getBasicBranchName env.user number →
      (createIssueBranch env number saved).checkoutAttempts =
        [name, getBasicBranchName env.user number] ∧
      (createIssueBranch env number saved).errorMessages ≠ [] ∧
      (env.checkoutFails (getBasicBranchName env.user number) = false →
        (createIssueBranch env number saved).branchName =
          some (getBasicBranchName env.user number) ∧
        (createIssueBranch env number saved).savedState.branch =
          some (getBasicBranchName env.user number) ∧
        (createIssueBranch env number saved).threw = false) ∧
      (env.checkoutFails (getBasicBranchName env.user number) = true →
        (createIssueBranch env number saved).threw = true)) ∧
    (name = getBasicBranchName env.user number →
      (createIssueBranch env number saved).checkoutAttempts = [name] ∧
      (createIssueBranch env number saved).errorMessages ≠ [] ∧
      (createIssueBranch env number saved).branchName = none ∧
      (createIssueBranch env number saved).threw = false) := by
  by_cases hb : name = getBasicBranchName env.user number
  · rw [hb] at hres hfail ⊢
    unfold createIssueBranch
    rw [hres]
    simp [hfail]
  · have hcb : createIssueBranch env number saved =
        ⟨some (getBasicBranchName env.user number),
          ⟨some (getBasicBranchName env.user number), saved.hasDraftPR⟩,
          [name, getBasicBranchName env.user number],
          ["Unable to create branch with the resolved name. Using the basic name instead."],
          env.checkoutFails (getBasicBranchName env.user number)⟩ := by
      unfold createIssueBranch
      rw [hres]
      simp [hfail, hb]
    rw [hcb]
    refine ⟨by simp, fun _ => ⟨rfl, by simp, fun h2 => by simp [h2], fun h2 => by simp [h2]⟩,
      fun h => absurd h hb⟩

/-- Witness for C1 at a concrete input: the resolved name `feat` fails
checkout and exactly the two attempts `feat` then `me/issue3` are
made. -/
theorem branch_checkout_failure_retries_once_with_fallback_witness :
    (resolveBranch ⟨false, "on", "feat", none, "me", fun s => s == "feat"⟩ 3
      ⟨none, false⟩).1 = some "feat" ∧
    BranchEnv.checkoutFails ⟨false, "on", "feat", none, "me", fun s => s == "feat"⟩
      "feat" = true ∧
    (createIssueBranch ⟨false, "on", "feat", none, "me", fun s => s == "feat"⟩ 3
      ⟨none, false⟩).checkoutAttempts = ["feat", "me/issue3"] :=
  ⟨by decide, by decide,
    ((branch_checkout_failure_retries_once_with_fallback
      ⟨false, "on", "feat", none, "me", fun s => s == "feat"⟩ 3 ⟨none, false⟩ "feat"
      (by decide) (by decide)).2.1 (by decide)).1⟩

/-- C3: branch-name resolution precedence in `createIssueBranch`: a
requested prompt always asks the user (ignoring the saved name); else a
truthy saved branch name is reused without prompting; else configuration
`on` derives the name from template substitution; else the user is
prompted; a blank or dismissed prompt falls back to the deterministic
basic name; configuration `off` (without a requested prompt) resolves no
branch and changes nothing; and after a call that established a branch
name, a later resolution without prompt reuses exactly that name without
prompting. -/
theorem branch_resolution_precedence
    (env : BranchEnv) (number : Nat) (saved : IssueState) :
    (env.shouldPromptForBranch = true →
      resolveBranch env number saved =
        (some (defaultedName env.promptResult (getBasicBranchName env.user number)),
          true)) ∧
    (env.shouldPromptForBranch = false → env.branchConfig ≠ "off" →
      strTruthy saved.branch = true →
      resolveBranch env number saved = (saved.branch, false)) ∧
    (env.shouldPromptForBranch = false → env.branchConfig = "on" →
      strTruthy saved.branch = false →
      resolveBranch env number saved =
        (some (defaultedName (some env.branchNameSubst)
          (getBasicBranchName env.user number)), false)) ∧
    (env.shouldPromptForBranch = false → env.branchConfig ≠ "off" →
      env.branchConfig ≠ "on" → strTruthy saved.branch = false →
      resolveBranch env number saved =
        (some (defaultedName env.promptResult (getBasicBranchName env.user number)),
          true)) ∧
    (env.shouldPromptForBranch = false → env.branchConfig = "off" →
      resolveBranch env number saved = (none, false) ∧
      createIssueBranch env number saved = ⟨none, saved, [], [], false⟩) ∧
    (defaultedName none (getBasicBranchName env.user number) =
        getBasicBranchName env.user number ∧
      defaultedName (some "") (getBasicBranchName env.user number) =
        getBasicBranchName env.user number) ∧
    (∀ (env1 : BranchEnv) (b : String),
      (createIssueBranch env1 number saved).branchName = some b →
      env.shouldPromptForBranch = false → env.branchConfig ≠ "off" →
      resolveBranch env number ((createIssueBranch env1 number saved).savedState) =
        (some b, false)) := by
  refine ⟨fun h1 => ?_, fun h1 h2 h3 => resolveBranch_reuses_saved env number saved h1 h2 h3,
    fun h1 h2 h3 => ?_, fun h1 h2 h3 h4 => ?_, fun h1 h2 => ?_, ⟨rfl, rfl⟩,
    fun env1 b hbn h1 h2 => ?_⟩
  · simp [resolveBranch, h1, strTruthy]
  · simp [resolveBranch, h1, h2, h3]
  · simp [resolveBranch, h1, h2, h3, h4]
  · constructor
    · simp [resolveBranch, h1, h2]
    · simp [createIssueBranch, resolveBranch, h1, h2]
  · obtain ⟨hsb, hne⟩ := createIssueBranch_branchName_saved env1 number saved b hbn
    have hr := resolveBranch_reuses_saved env number
      ((createIssueBranch env1 number saved).savedState) h1 h2
      (by rw [hsb]; simp [strTruthy, hne])
    rw [hr, hsb]

/-- Witness for C3 at a concrete input: a saved branch name is reused
as is. -/
theorem branch_resolution_precedence_witness :
    (false = false ∧ ("on" : String) ≠ "off" ∧
      strTruthy (IssueState.branch ⟨some "mybranch", false⟩) = true) ∧
    resolveBranch ⟨false, "on", "x", none, "me", fun _ => false⟩ 3
      ⟨some "mybranch", false⟩ = (some "mybranch", false) :=
  ⟨⟨rfl, by decide, by decide⟩,
    (branch_resolution_precedence ⟨false, "on", "x", none, "me", fun _ => false⟩ 3
      ⟨some "mybranch", false⟩).2.1 rfl (by decide) (by decide)⟩

/-- C10: when the initially resolved name already equals the
deterministic fallback name and its checkout fails, the `startWorking`
call ends with the session branch name undefined while the persisted
state still records that name, and the draft-PR step of the same call
pushes nothing. -/
theorem fallback_collision_persists_name_and_skips_draft_pr
    (env : StartWorkingEnv) (number : Nat) (saved : IssueState)
    (hres : (resolveBranch env.branchEnv number saved).1 =
      some (getBasicBranchName env.branchEnv.user number))
    (hfail : env.branchEnv.checkoutFails
      (getBasicBranchName env.branchEnv.user number) = true) :
    (startWorking env number saved).branch.branchName = none ∧
    (startWorking env number saved).branch.savedState.branch =
      some (getBasicBranchName env.branchEnv.user number) ∧
    (startWorking env number saved).draftPushed = false ∧
    (startWorking env number saved).finalIssueState.branch =
      some (getBasicBranchName env.branchEnv.user number) := by
  have hcb : createIssueBranch env.branchEnv number saved =
      ⟨none, { saved with branch := some (getBasicBranchName env.branchEnv.user number) },
        [getBasicBranchName env.branchEnv.user number],
        ["Unable to checkout branch. There may be file conflicts that prevent this branch change."],
        false⟩ := by
    unfold createIssueBranch
    rw [hres]
    simp [hfail]
  unfold startWorking
  rw [hcb]
  simp [createDraftPR, strTruthy]

/-- Witness for C10 at a concrete input: prompt dismissed, so the basic
name `me/issue3` is resolved; its checkout fails; the state records the
name, the session has none, and nothing is pushed. -/
theorem fallback_collision_persists_name_and_skips_draft_pr_witness :
    (resolveBranch ⟨false, "prompt", "", none, "me", fun s => s == "me/issue3"⟩ 3
      ⟨none, false⟩).1 = some (getBasicBranchName "me" 3) ∧
    (startWorking
      ⟨none, ⟨false, "prompt", "", none, "me", fun s => s == "me/issue3"⟩,
        ⟨true, true⟩, true, some "scm"⟩ 3 ⟨none, false⟩).draftPushed = false :=
  ⟨by decide,
    (fallback_collision_persists_name_and_skips_draft_pr
      ⟨none, ⟨false, "prompt", "", none, "me", fun s => s == "me/issue3"⟩,
        ⟨true, true⟩, true, some "scm"⟩ 3 ⟨none, false⟩
      (by decide) (by decide)).2.2.1⟩

/-- C2: `createDraftPR` never pushes while the persisted `hasDraftPR`
flag is true (and leaves the state unchanged then), pushes only when the
flag is false, sets the flag after a successful push, and therefore —
across any sequence of calls threading the persisted state — makes zero
push invocations at flagged moments and at most one successful push in
total. -/
theorem draft_pr_pushed_at_most_once_per_issue :
    (∀ (e : DraftPREnv) (b : Option String) (s : IssueState),
      s.hasDraftPR = true → createDraftPR e b s = ⟨false, s⟩) ∧
    (∀ (e : DraftPREnv) (b : Option String) (s : IssueState),
      (createDraftPR e b s).pushed = true → s.hasDraftPR = false) ∧
    (∀ (e : DraftPREnv) (b : Option String) (s : IssueState),
      (createDraftPR e b s).pushed = true → e.pushSucceeds = true →
      (createDraftPR e b s).state.hasDraftPR = true) ∧
    (∀ (calls : List (DraftPREnv × Option String)) (s : IssueState),
      pushesWhileFlagged calls s = 0) ∧
    (∀ (calls : List (DraftPREnv × Option String)) (s : IssueState),
      successfulPushes calls s ≤ 1) :=
  ⟨createDraftPR_flagged, createDraftPR_pushed_not_flagged, createDraftPR_success_flag,
    pushesWhileFlagged_eq_zero, successfulPushes_le_one⟩

/-- Witness for C2 at a concrete input: with the flag already set, a
call with the configuration on and a truthy branch pushes nothing and
leaves the state unchanged. -/
theorem draft_pr_pushed_at_most_once_per_issue_witness :
    IssueState.hasDraftPR ⟨some "b", true⟩ = true ∧
    createDraftPR ⟨true, true⟩ (some "b") ⟨some "b", true⟩ = ⟨false, ⟨some "b", true⟩⟩ :=
  ⟨rfl, draft_pr_pushed_at_most_once_per_issue.1 ⟨true, true⟩ (some "b")
    ⟨some "b", true⟩ rfl⟩

/-- C4: the registrar's `stopWorking` with no active current-issue
session, with a non-issue argument, or with an issue other than the
current one performs no repository mutation and leaves the session as
it was; repeating any call produces no further mutation (idempotence). -/
theorem stop_working_without_active_session_is_noop :
    (∀ (b : Bool) (n : Nat), registrarStopWorking b n none = ([], none)) ∧
    (∀ (b : Bool) (n : Nat) (s : CurrentIssueSession), s.number ≠ n →
      registrarStopWorking b n (some s) = ([], some s)) ∧
    (∀ (n : Nat) (cur : Option CurrentIssueSession),
      registrarStopWorking false n cur = ([], cur)) ∧
    (∀ (b : Bool) (n : Nat) (cur : Option CurrentIssueSession),
      registrarStopWorking b n (registrarStopWorking b n cur).2 =
        ([], (registrarStopWorking b n cur).2)) := by
  refine ⟨fun b n => rfl, fun b n s h => ?_, fun n cur => ?_, fun b n cur => ?_⟩
  · have hbeq : (s.number == n) = false := by simp [h]
    simp [registrarStopWorking, hbeq]
  · cases cur with
    | none => rfl
    | some s => simp [registrarStopWorking]
  · cases cur with
    | none => rfl
    | some s =>
      by_cases hc : (b && (s.number == n)) = true
      · simp [registrarStopWorking, hc]
      · simp only [Bool.not_eq_true] at hc
        simp [registrarStopWorking, hc]

/-- Witness for C4 at a concrete input: the current session is for
issue 3, and stopping issue 4 changes nothing. -/
theorem stop_working_without_active_session_is_noop_witness :
    CurrentIssueSession.number ⟨3, true, none⟩ ≠ 4 ∧
    registrarStopWorking true 4 (some ⟨3, true, none⟩) = ([], some ⟨3, true, none⟩) :=
  ⟨by decide, stop_working_without_active_session_is_noop.2.1 true 4 ⟨3, true, none⟩
    (by decide)⟩

/-- C5: when the defaults fetch at the start of `startWorking` fails,
the flow is not aborted: defaults stay undefined, an error message is
shown, branch resolution proceeds unchanged, and (as long as no
exception escaped the branch step) the commit message, status bar and
draft-PR steps all still run; the status-bar quick-pick offers the
apply-patch entry exactly when both a truthy branch name and fetched
defaults exist, so with defaults unavailable it is omitted. -/
theorem start_working_tolerates_defaults_failure
    (env : StartWorkingEnv) (number : Nat) (saved : IssueState)
    (hfail : env.defaultsFetch = none) :
    (startWorking env number saved).repoDefaults = none ∧
    (startWorking env number saved).errorShown = true ∧
    (startWorking env number saved).branch = createIssueBranch env.branchEnv number saved ∧
    ((createIssueBranch env.branchEnv number saved).threw = false →
      (startWorking env number saved).statusBarShown = true ∧
      (startWorking env number saved).commitMessageSet =
        (env.hasRepo && env.workingIssueFormatScm.isSome) ∧
      (startWorking env number saved).draftPushed =
        (createDraftPR env.draftEnv
          (createIssueBranch env.branchEnv number saved).branchName
          (createIssueBranch env.branchEnv number saved).savedState).pushed) ∧
    (StatusBarChoice.applyPatch ∉
      statusBarChoices (startWorking env number saved).branch.branchName none) ∧
    (∀ (b : Option String) (d : Option PullRequestDefaults),
      StatusBarChoice.applyPatch ∈ statusBarChoices b d ↔
        (strTruthy b = true ∧ d.isSome = true)) := by
  have hmem : ∀ (b : Option String) (d : Option PullRequestDefaults),
      StatusBarChoice.applyPatch ∈ statusBarChoices b d ↔
        (strTruthy b = true ∧ d.isSome = true) := by
    intro b d
    unfold statusBarChoices
    by_cases hc : (strTruthy b && d.isSome) = true
    · rw [Bool.and_eq_true] at hc
      simp [hc.1, hc.2]
    · rw [if_neg hc]
      rw [Bool.and_eq_true] at hc
      simp only [List.mem_cons, List.not_mem_nil]
      constructor
      · intro hor
        rcases hor with h | h | h | h | h <;> simp_all
      · intro hand
        exact absurd hand hc
  refine ⟨?_, ?_, ?_, fun h2 => ?_, ?_, hmem⟩
  · by_cases ht : (createIssueBranch env.branchEnv number saved).threw = true
    · simp [startWorking, hfail, ht]
    · simp only [Bool.not_eq_true] at ht
      simp [startWorking, hfail, ht]
  · by_cases ht : (createIssueBranch env.branchEnv number saved).threw = true
    · simp [startWorking, hfail, ht]
    · simp only [Bool.not_eq_true] at ht
      simp [startWorking, hfail, ht]
  · by_cases ht : (createIssueBranch env.branchEnv number saved).threw = true
    · simp [startWorking, hfail, ht]
    · simp only [Bool.not_eq_true] at ht
      simp [startWorking, hfail, ht]
  · simp [startWorking, h2]
  · rw [hmem]
    simp

/-- Witness for C5 at a concrete input: the defaults fetch fails and the
error message is still followed by a shown status bar. -/
theorem start_working_tolerates_defaults_failure_witness :
    StartWorkingEnv.defaultsFetch
      ⟨none, ⟨false, "on", "feat", none, "me", fun _ => false⟩, ⟨false, false⟩,
        true, some "scm"⟩ = none ∧
    (startWorking
      ⟨none, ⟨false, "on", "feat", none, "me", fun _ => false⟩, ⟨false, false⟩,
        true, some "scm"⟩ 3 ⟨none, false⟩).errorShown = true :=
  ⟨rfl,
    (start_working_tolerates_defaults_failure
      ⟨none, ⟨false, "on", "feat", none, "me", fun _ => false⟩, ⟨false, false⟩,
        true, some "scm"⟩ 3 ⟨none, false⟩ rfl).2.1⟩

/-- C6: in `createTodoIssue`, the created issue gets an assignee exactly
when the selection text holds exactly one at-mention whose captured user
name is a key of the known-users map — and then it is that user; with
zero mentions or more than one mention no assignee is set. -/
theorem todo_issue_assignee_from_single_known_mention
    (knownUsers : List String) (text : String) :
    ((mentionGroups text.toList).length ≠ 1 →
      computeAssignee knownUsers text = none) ∧
    (∀ g, mentionGroups text.toList = [g] →
      computeAssignee knownUsers text =
        (if knownUsers.contains g then some g else none)) := by
  constructor
  · intro h
    unfold computeAssignee matchUserExpression
    cases hm : mentionGroups text.toList with
    | nil => rfl
    | cons g tl =>
      cases tl with
      | nil => rw [hm] at h; simp at h
      | cons g2 tl2 => rfl
  · intro g hm
    unfold computeAssignee matchUserExpression
    rw [hm]
    by_cases hc : knownUsers.contains g = true
    · simp [hc]
    · simp only [Bool.not_eq_true] at hc
      simp [hc]

/-- Witness for C6 at a concrete input: the text holds the single known
mention `alice`, which becomes the assignee. -/
theorem todo_issue_assignee_from_single_known_mention_witness :
    mentionGroups (String.toList "fix @alice now") = ["alice"] ∧
    computeAssignee ["alice"] "fix @alice now" = some "alice" :=
  ⟨by decide,
    ((todo_issue_assignee_from_single_known_mention ["alice"] "fix @alice now").2
      "alice" (by decide)).trans (by decide)⟩

/-- C7: when the pull-request defaults cannot be determined (no
configured remote), `doCreateIssue` catches the error, shows a
user-visible message, reaches neither the remote creation call nor any
document edit or external open; the `createIssue` command likewise only
shows a message. -/
theorem missing_remote_aborts_issue_creation
    (env : DoCreateIssueEnv) (h : env.defaultsResult = none) :
    (doCreateIssue env).createCalled = false ∧
    (doCreateIssue env).effects =
      [UIEffect.errorMessage "There is no remote. Cannot create an issue."] ∧
    (∀ (l c : Nat) (t : String),
      UIEffect.insertEdit l c t ∉ (doCreateIssue env).effects) ∧
    (∀ u : String, UIEffect.openExternal u ∉ (doCreateIssue env).effects) ∧
    registrarCreateIssue none =
      [UIEffect.errorMessage "Unable to determine where to create the issue."] := by
  unfold doCreateIssue
  rw [h]
  refine ⟨rfl, rfl, ?_, ?_, rfl⟩
  · intro l c t
    simp
  · intro u
    simp

/-- Witness for C7 at a concrete input: with no defaults the creation
call is never reached. -/
theorem missing_remote_aborts_issue_creation_witness :
    DoCreateIssueEnv.defaultsResult ⟨none, none, "number", none, none⟩ = none ∧
    (doCreateIssue ⟨none, none, "number", none, none⟩).createCalled = false :=
  ⟨rfl, (missing_remote_aborts_issue_creation ⟨none, none, "number", none, none⟩ rfl).1⟩

/-- C8: after a successful remote creation in `doCreateIssue`, when both
an insert index and a line number were provided, a space followed by
`#number` (configuration `number`) or by the issue URL (any other
configuration) is inserted at that position and the cache refreshed;
otherwise the issue URL is opened externally instead. -/
theorem created_issue_reference_insertion
    (env : DoCreateIssueEnv) (issue : CreatedIssue)
    (hd : env.defaultsResult.isSome = true)
    (hc : env.createResult = some issue) :
    (∀ (ii ln : Nat), env.insertIndex = some ii → env.lineNumber = some ln →
      (doCreateIssue env).effects =
        [UIEffect.insertEdit ln ii
          (" " ++ (if env.createInsertFormat = "number"
            then "#" ++ toString issue.number else issue.html_url)),
          UIEffect.refreshCache]) ∧
    (env.insertIndex = none ∨ env.lineNumber = none →
      (doCreateIssue env).effects =
        [UIEffect.openExternal issue.html_url, UIEffect.refreshCache]) := by
  obtain ⟨d, hdef⟩ := Option.isSome_iff_exists.mp hd
  unfold doCreateIssue
  rw [hdef, hc]
  constructor
  · intro ii ln hii hln
    rw [hii, hln]
  · intro hor
    rcases hor with hii | hln
    · rw [hii]
    · rw [hln]
      cases h2 : env.insertIndex <;> rfl

/-- Witness for C8 at a concrete input: issue number 7 created from line
2, column 5, with format `number`, inserts the reference text ` #7`. -/
theorem created_issue_reference_insertion_witness :
    (DoCreateIssueEnv.defaultsResult
      ⟨some ⟨"o", "r", "main"⟩, some ⟨7, "u"⟩, "number", some 2, some 5⟩).isSome = true ∧
    (doCreateIssue
      ⟨some ⟨"o", "r", "main"⟩, some ⟨7, "u"⟩, "number", some 2, some 5⟩).effects =
      [UIEffect.insertEdit 2 5 " #7", UIEffect.refreshCache] :=
  ⟨rfl,
    ((created_issue_reference_insertion
      ⟨some ⟨"o", "r", "main"⟩, some ⟨7, "u"⟩, "number", some 2, some 5⟩
      ⟨7, "u"⟩ rfl rfl).1 5 2 rfl rfl).trans (by decide)⟩

/-- C9: `editQuery` opens the workspace settings file exactly when the
configuration inspection reports a workspace-scope value, and the global
settings JSON otherwise. -/
theorem edit_query_opens_workspace_settings_when_override (i : QueriesInspect) :
    (i.workspaceValue.isSome = true →
      editQueryCommand (some i) = "workbench.action.openWorkspaceSettingsFile") ∧
    (i.workspaceValue.isSome = false →
      editQueryCommand (some i) = "workbench.action.openSettingsJson") ∧
    editQueryCommand none = "workbench.action.openSettingsJson" := by
  refine ⟨fun h => ?_, fun h => ?_, rfl⟩ <;> simp [editQueryCommand, h]

/-- Witness for C9 at a concrete input: a present workspace override
routes to the workspace settings file. -/
theorem edit_query_opens_workspace_settings_when_override_witness :
    (QueriesInspect.workspaceValue ⟨some ["q"], none⟩).isSome = true ∧
    editQueryCommand (some ⟨some ["q"], none⟩) =
      "workbench.action.openWorkspaceSettingsFile" :=
  ⟨rfl, (edit_query_opens_workspace_settings_when_override ⟨some ["q"], none⟩).1 rfl⟩
